import Mathlib

/-!
Shallow embedding of the promoted-go-delivery-client-example repository.

The repository holds two versions of the same example program:

* `src/main.go` — the current version, embedded in namespace `PromotedExample`;
* `src/unnamed/part_000` — an earlier version of `main.go` whose inline
  insertion-building loop is embedded as `PromotedExample.part000Insertions`.

Modelling conventions:

* the process environment is a function `String → Option String`
  (`os.LookupEnv`); `os.Getenv` is `getEnvStr`, returning `""` when unset;
* Go `float64` values produced by `strconv.ParseFloat` and carried in
  protobuf `structpb` number values are modelled as exact rationals (`Rat`);
  IEEE-754 rounding and the special values Inf/NaN are abstracted away —
  no claim below depends on the numeric value of a parsed float;
* protobuf structs (`structpb.Struct`) are association lists
  `List (String × PValue)` in the source literal's field order;
* the external collaborators (the client builder and the `Deliver` HTTP
  call) are inputs of the program model: a `World` value supplies their
  outcomes, and `runMain` returns the ordered list of observable events
  (prints, exit, panic) the program performs in that world.
-/

namespace PromotedExample

/-- The process environment, as queried by `os.LookupEnv`. -/
abbrev Env := String → Option String

/-- `os.Getenv key`: the value of the variable, or `""` when it is unset. -/
def getEnvStr (env : Env) (key : String) : String :=
  (env key).getD ""

/-- Go `strconv.ParseBool`: accepts exactly the twelve literal strings below,
fails on everything else. -/
def goParseBool : String → Option Bool
  | "1" => some true
  | "t" => some true
  | "T" => some true
  | "TRUE" => some true
  | "true" => some true
  | "True" => some true
  | "0" => some false
  | "f" => some false
  | "F" => some false
  | "FALSE" => some false
  | "false" => some false
  | "False" => some false
  | _ => none

/-- Splits a leading run of decimal digits from a character list. -/
def takeDigits : List Char → List Char × List Char
  | [] => ([], [])
  | c :: cs =>
    if c.isDigit then
      let (ds, rest) := takeDigits cs
      (c :: ds, rest)
    else
      ([], c :: cs)

/-- Decimal value of a digit list. -/
def digitsToNat (ds : List Char) : Nat :=
  ds.foldl (fun a c => a * 10 + (c.toNat - 48)) 0

/-- Go `strconv.ParseFloat(s, 64)`, modelled over exact rationals: an optional
sign, an integer part and/or a fractional part (at least one digit between
them), and an optional decimal exponent, consuming the whole string.
Hexadecimal floats, digit-group underscores and the Inf/NaN forms of the Go
parser are not modelled (the last two have no finite rational value); no claim
depends on the parsed value of a present float variable. -/
def goParseFloat (s : String) : Option Rat :=
  let (sign, cs1) :=
    match s.toList with
    | '+' :: r => ((1 : Int), r)
    | '-' :: r => ((-1 : Int), r)
    | r => ((1 : Int), r)
  let (ip, cs2) := takeDigits cs1
  let (fp, cs3) :=
    match cs2 with
    | '.' :: r => takeDigits r
    | r => ([], r)
  if ip.isEmpty && fp.isEmpty then
    none
  else
    let mant : Rat :=
      (sign : Rat) * ((digitsToNat ip : Rat) + (digitsToNat fp : Rat) / (10 : Rat) ^ fp.length)
    match cs3 with
    | [] => some mant
    | e :: r =>
      if e = 'e' ∨ e = 'E' then
        let (esign, r1) :=
          match r with
          | '+' :: r2 => ((1 : Int), r2)
          | '-' :: r2 => ((-1 : Int), r2)
          | r2 => ((1 : Int), r2)
        let (ed, r2) := takeDigits r1
        if ed.isEmpty ∨ ¬ r2.isEmpty then
          none
        else
          some (mant * (10 : Rat) ^ (esign * (digitsToNat ed : Int)))
      else
        none

/-- `parseBoolEnv` from `src/main.go`: look the key up, return the default when
the variable is absent or `strconv.ParseBool` fails, else the parsed value. -/
def parseBoolEnv (env : Env) (key : String) (defaultValue : Bool) : Bool :=
  match env key with
  | none => defaultValue
  | some val =>
    match goParseBool val with
    | none => defaultValue
    | some parsed => parsed

/-- `parseFloatEnv` from `src/main.go`: look the key up, return the default
when the variable is absent or `strconv.ParseFloat` fails, else the parsed
value. -/
def parseFloatEnv (env : Env) (key : String) (defaultValue : Rat) : Rat :=
  match env key with
  | none => defaultValue
  | some val =>
    match goParseFloat val with
    | none => defaultValue
    | some parsed => parsed

/-- The `Config` struct of `src/main.go` (`float64` as `Rat`). -/
structure Config where
  MetricsApiEndpointUrl : String
  MetricsApiKey : String
  DeliveryApiEndpointUrl : String
  DeliveryApiKey : String
  OnlyLog : Bool
  ShadowTrafficDeliveryRate : Rat
  BlockingShadowTraffic : Bool
deriving DecidableEq, Repr

/-- The `Config` literal at the top of `main` in `src/main.go`: four raw
string reads through `os.Getenv` and three reads with coercion and defaults. -/
def buildConfig (env : Env) : Config where
  MetricsApiEndpointUrl := getEnvStr env "METRICS_API_ENDPOINT_URL"
  MetricsApiKey := getEnvStr env "METRICS_API_KEY"
  DeliveryApiEndpointUrl := getEnvStr env "DELIVERY_API_ENDPOINT_URL"
  DeliveryApiKey := getEnvStr env "DELIVERY_API_KEY"
  OnlyLog := parseBoolEnv env "ONLY_LOG" false
  ShadowTrafficDeliveryRate := parseFloatEnv env "SHADOW_TRAFFIC_DELIVERY_RATE" 0
  BlockingShadowTraffic := parseBoolEnv env "BLOCKING_SHADOW_TRAFFIC" false

/-- `validateConfig` from `src/main.go`: `some msg` is the returned error,
`none` is a nil error. -/
def validateConfig (config : Config) : Option String :=
  if config.MetricsApiEndpointUrl = "" then
    some "metricsApiEndpointUrl needs to be specified"
  else if config.MetricsApiKey = "" then
    some "metricsApiKey needs to be specified"
  else if config.DeliveryApiEndpointUrl = "" then
    some "deliveryApiEndpointUrl needs to be specified"
  else if config.DeliveryApiKey = "" then
    some "deliveryApiKey needs to be specified"
  else
    none

/-- The `Product` struct of `src/main.go`. -/
structure Product where
  ID : String
  Name : String
  Price : Int
deriving DecidableEq, Repr

/-- `getProducts` from `src/main.go`: the fixed two-element catalog. -/
def getProducts : List Product :=
  [{ ID := "1", Name := "Product 1", Price := 100 },
   { ID := "2", Name := "Product 2", Price := 200 }]

/-- The `productsMap` loop of `main`: fold the products into a lookup map,
a later product with the same ID overwriting an earlier one. -/
def productsMapOf (products : List Product) : String → Option Product :=
  products.foldl (fun m product => fun id => if id = product.ID then some product else m id)
    (fun _ => none)

/-- A protobuf `structpb` value, restricted to the kinds this program builds:
numbers (Go `float64`, modelled exactly as `Rat`) and strings. -/
inductive PValue where
  | num (q : Rat)
  | str (s : String)
deriving DecidableEq, Repr

/-- A Go `any` value passed to `structpb.NewValue` by this program:
an `int`, a `float64` literal, or a `string`. -/
inductive GoAny where
  | int (n : Int)
  | float (q : Rat)
  | str (s : String)
deriving DecidableEq, Repr

/-- Conversion of one Go `any` field value by `structpb.NewValue`; would be
`none` for an unsupported Go type, which this program never passes. -/
def structpbNewValueEntry : GoAny → Option PValue
  | GoAny.int n => some (PValue.num (n : Rat))
  | GoAny.float q => some (PValue.num q)
  | GoAny.str s => some (PValue.str s)

/-- `structpb.NewValue` on a `map[string]any` literal followed by
`GetStructValue()`: convert each field, failing if any field fails.
The fields are kept in the order of the source literal. -/
def structpbNewStruct : List (String × GoAny) → Option (List (String × PValue))
  | [] => some []
  | (key, v) :: rest =>
    match structpbNewValueEntry v with
    | none => none
    | some pv =>
      match structpbNewStruct rest with
      | none => none
      | some pvs => some ((key, pv) :: pvs)

/-- A `delivery.Insertion`: the content id and the optional `Properties`
struct (`none` models a nil `Properties` pointer). -/
structure Insertion where
  ContentId : String
  Properties : Option (List (String × PValue))
deriving DecidableEq, Repr

/-- `newTestRequestInsertions` from `src/main.go`: one insertion per product,
carrying the product's price as a dynamic property; `none` models the panic
taken when `structpb.NewValue` fails (it cannot on an `int`). -/
def newTestRequestInsertions : List Product → Option (List Insertion)
  | [] => some []
  | product :: rest =>
    match structpbNewStruct [("price", GoAny.int product.Price)] with
    | none => none
    | some props =>
      match newTestRequestInsertions rest with
      | none => none
      | some insertions => some ({ ContentId := product.ID, Properties := some props } :: insertions)

/-- The inline insertion-building loop of `main` in `src/unnamed/part_000`
(lines 71–75): one insertion per product with only the content id set and a
nil `Properties` pointer. -/
def part000Insertions : List Product → List Insertion
  | [] => []
  | product :: rest => { ContentId := product.ID, Properties := none } :: part000Insertions rest

/-- `common.UserInfo`, the fields this program sets. -/
structure UserInfo where
  AnonUserId : String
  UserId : String
deriving DecidableEq, Repr

/-- The `delivery.UseCase` proto enum, restricted to the values relevant
here (the program only ever uses `SEARCH`). -/
inductive UseCase where
  | UNKNOWN_USE_CASE
  | SEARCH
  | FEED
deriving DecidableEq, Repr

/-- `delivery.Paging` with a `Paging_Offset` starting point. -/
structure Paging where
  Offset : Int
  Size : Int
deriving DecidableEq, Repr

/-- The fields of `delivery.Request` that `newTestRequest` sets. -/
structure Request where
  UserInfo : UserInfo
  UseCase : UseCase
  SearchQuery : String
  Paging : Paging
  DisablePersonalization : Bool
  Properties : Option (List (String × PValue))
  Insertion : List Insertion
deriving DecidableEq, Repr

/-- `client.DeliveryRequest`: the wrapped request plus the only-log flag. -/
structure DeliveryRequest where
  Request : Request
  OnlyLog : Bool
deriving DecidableEq, Repr

/-- `newTestRequest` from `src/main.go`: build the request-level properties
struct (an error there is returned), then the fixed test request around the
given insertions and only-log flag. -/
def newTestRequest (insertions : List Insertion) (onlyLog : Bool) :
    Except String DeliveryRequest :=
  match structpbNewStruct [("category", GoAny.str "topic"), ("priceMin", GoAny.float 10)] with
  | none => Except.error "structpb.NewValue failed"
  | some requestProps =>
    Except.ok
      { Request :=
          { UserInfo := { AnonUserId := "testAnonUserId1", UserId := "testUserId1" }
            UseCase := UseCase.SEARCH
            SearchQuery := "query"
            Paging := { Offset := 0, Size := 3 }
            DisablePersonalization := false
            Properties := some requestProps
            Insertion := insertions }
        OnlyLog := onlyLog }

/-- An insertion of the delivery response; only its content id is read. -/
structure RespInsertion where
  ContentId : String
deriving DecidableEq, Repr

/-- The inner `delivery.Response` of the API response. -/
structure APIResponse where
  Insertion : List RespInsertion
deriving DecidableEq, Repr

/-- The `client.DeliveryResponse` value returned by `client.Deliver`. -/
structure ClientResponse where
  ExecutionServer : String
  ClientRequestID : String
  Response : APIResponse
deriving DecidableEq, Repr

/-- Go `fmt.Printf("%v", p)` on a `*Product` pointer. -/
def showProduct (product : Product) : String :=
  "&\x7b" ++ product.ID ++ " " ++ product.Name ++ " " ++ toString product.Price ++ "\x7d"

/-- The line printed for one response insertion: the catalog product when the
content id is a key of the products map, the raw content id otherwise. -/
def lineFor (productsMap : String → Option Product) (insertion : RespInsertion) : String :=
  match productsMap insertion.ContentId with
  | some product => showProduct product
  | none => insertion.ContentId

/-- The response-printing loop at the end of `main`: one line per response
insertion, in response order, looking each content id up in the map. -/
def printLoop (productsMap : String → Option Product) : List RespInsertion → List String
  | [] => []
  | insertion :: rest =>
    (match productsMap insertion.ContentId with
     | some product => showProduct product
     | none => insertion.ContentId) :: printLoop productsMap rest

/-- The three header lines printed before the per-insertion lines. -/
def headerLines (resp : ClientResponse) : List String :=
  ["Execution server: " ++ resp.ExecutionServer,
   "Client request ID: " ++ resp.ClientRequestID,
   "Response"]

/-- An observable event of a run of `main`. -/
inductive Ev where
  | parseConfig (config : Config)
  | validateFail (msg : String)
  | exit (code : Nat)
  | buildClient
  | buildRequest
  | deliver
  | print (line : String)
  | panicked
deriving DecidableEq, Repr

/-- The outcomes of the two external collaborators of a run: the client
builder (`NewPromotedDeliveryClient`) and the `Deliver` HTTP call. -/
structure World where
  clientResult : Except String Unit
  deliverResult : Except String ClientResponse

/-- The tail of `main` after a successfully built client: build the
insertions and the request (panicking on failure), call `Deliver` once, and
on success print the headers and the re-ranked results. -/
def mainAfterClient (config : Config) (w : World) : List Ev :=
  match newTestRequestInsertions getProducts with
  | none => [Ev.print "insertion structpb.NewValue failed", Ev.panicked]
  | some requestInsertions =>
    match newTestRequest requestInsertions config.OnlyLog with
    | Except.error _ => [Ev.print "newTestRequest failed", Ev.panicked]
    | Except.ok _req =>
      Ev.buildRequest :: Ev.deliver ::
        match w.deliverResult with
        | Except.error _ => [Ev.print "Delivery called failed", Ev.panicked]
        | Except.ok resp =>
          (headerLines resp ++ printLoop (productsMapOf getProducts) resp.Response.Insertion).map
            Ev.print

/-- `main` from `src/main.go` as an event trace: parse the config, validate
it (exiting with status 1 on error), build the client (panicking on error),
then continue with `mainAfterClient`. -/
def runMain (env : Env) (w : World) : List Ev :=
  let config := buildConfig env
  Ev.parseConfig config ::
    match validateConfig config with
    | some msg => [Ev.validateFail msg, Ev.exit 1]
    | none =>
      match w.clientResult with
      | Except.error _ =>
        [Ev.buildClient, Ev.print "Error initializing PromotedDeliveryClient", Ev.panicked]
      | Except.ok _ => Ev.buildClient :: mainAfterClient config w

/-- An environment with every variable unset. -/
def emptyEnv : Env := fun _ => none

/-- The environment that sets exactly one variable, to `"1"` (a string that
is nonempty, parses as `true`, and parses as the float `1`). -/
def flipEnv (k : String) : Env := fun j => if j = k then some "1" else none

/-- The seven environment variables the `Config` literal in `main` reads. -/
def envKeys7 : Finset String :=
  {"METRICS_API_ENDPOINT_URL", "METRICS_API_KEY", "DELIVERY_API_ENDPOINT_URL",
   "DELIVERY_API_KEY", "ONLY_LOG", "SHADOW_TRAFFIC_DELIVERY_RATE", "BLOCKING_SHADOW_TRAFFIC"}

/-- Default insertion used with `List.getD` in index-wise statements. -/
def dummyInsertion : Insertion := { ContentId := "", Properties := none }

section Theorems

/-- Helper: the printing loop emits one line per response insertion. -/
theorem printLoop_length (pm : String → Option Product) :
    ∀ ins : List RespInsertion, (printLoop pm ins).length = ins.length
  | [] => rfl
  | _ :: rest => congrArg Nat.succ (printLoop_length pm rest)

/-- Helper: the `k`-th line of the printing loop is determined by the `k`-th
response insertion alone. -/
theorem printLoop_getD (pm : String → Option Product) (ins : List RespInsertion) :
    ∀ (k : Nat) (hk : k < ins.length),
      (printLoop pm ins).getD k "" = lineFor pm (ins.get ⟨k, hk⟩) := by
  induction ins with
  | nil => intro k hk; simp at hk
  | cons i rest ih =>
    intro k hk
    cases k with
    | zero => simp [printLoop, lineFor]
    | succ n =>
      have hn : n < rest.length := by simpa using hk
      calc (printLoop pm (i :: rest)).getD (n + 1) ""
          = (printLoop pm rest).getD n "" := by simp [printLoop]
        _ = lineFor pm (rest.get ⟨n, hn⟩) := ih n hn
        _ = lineFor pm ((i :: rest).get ⟨n + 1, hk⟩) := rfl

/-- C7: `getProducts` returns exactly the two fixed products, and the catalog
map built from it has exactly the keys `"1"` and `"2"`, each mapped to its
product. -/
theorem getProducts_catalog :
    getProducts = [{ ID := "1", Name := "Product 1", Price := 100 },
                   { ID := "2", Name := "Product 2", Price := 200 }] ∧
    (∀ c : String, (productsMapOf getProducts c).isSome ↔ (c = "1" ∨ c = "2")) ∧
    productsMapOf getProducts "1" = some { ID := "1", Name := "Product 1", Price := 100 } ∧
    productsMapOf getProducts "2" = some { ID := "2", Name := "Product 2", Price := 200 } := by
  refine ⟨rfl, ?_, rfl, rfl⟩
  intro c
  by_cases h2 : c = "2"
  · subst h2; simp [productsMapOf, getProducts]
  · by_cases h1 : c = "1"
    · subst h1; simp [productsMapOf, getProducts]
    · simp [productsMapOf, getProducts, h1, h2]

/-- C3: `parseBoolEnv` and `parseFloatEnv` return the default exactly when
the variable is absent or fails to parse, and the parsed value otherwise; in
particular, with `ONLY_LOG`, `SHADOW_TRAFFIC_DELIVERY_RATE` and
`BLOCKING_SHADOW_TRAFFIC` all unset, the `Config` gets `OnlyLog = false`,
`ShadowTrafficDeliveryRate = 0` and `BlockingShadowTraffic = false`. -/
theorem parseEnv_default_behavior (env : Env) (key : String) (db : Bool) (df : Rat) :
    (env key = none → parseBoolEnv env key db = db ∧ parseFloatEnv env key df = df) ∧
    (∀ v, env key = some v → goParseBool v = none → parseBoolEnv env key db = db) ∧
    (∀ v b, env key = some v → goParseBool v = some b → parseBoolEnv env key db = b) ∧
    (∀ v, env key = some v → goParseFloat v = none → parseFloatEnv env key df = df) ∧
    (∀ v x, env key = some v → goParseFloat v = some x → parseFloatEnv env key df = x) ∧
    (env "ONLY_LOG" = none → env "SHADOW_TRAFFIC_DELIVERY_RATE" = none →
      env "BLOCKING_SHADOW_TRAFFIC" = none →
      (buildConfig env).OnlyLog = false ∧
      (buildConfig env).ShadowTrafficDeliveryRate = 0 ∧
      (buildConfig env).BlockingShadowTraffic = false) := by
  refine ⟨?_, ?_, ?_, ?_, ?_, ?_⟩
  · intro h; exact ⟨by simp [parseBoolEnv, h], by simp [parseFloatEnv, h]⟩
  · intro v hv hp; simp [parseBoolEnv, hv, hp]
  · intro v b hv hp; simp [parseBoolEnv, hv, hp]
  · intro v hv hp; simp [parseFloatEnv, hv, hp]
  · intro v x hv hp; simp [parseFloatEnv, hv, hp]
  · intro h1 h2 h3
    exact ⟨by simp [buildConfig, parseBoolEnv, h1],
           by simp [buildConfig, parseFloatEnv, h2],
           by simp [buildConfig, parseBoolEnv, h3]⟩

/-- Witness for C3 at the empty environment and key `ONLY_LOG`. -/
theorem parseEnv_default_behavior_witness :
    parseBoolEnv emptyEnv "ONLY_LOG" true = true ∧
    parseFloatEnv emptyEnv "ONLY_LOG" 5 = 5 ∧
    (buildConfig emptyEnv).OnlyLog = false ∧
    (buildConfig emptyEnv).ShadowTrafficDeliveryRate = 0 ∧
    (buildConfig emptyEnv).BlockingShadowTraffic = false := by
  have h := parseEnv_default_behavior emptyEnv "ONLY_LOG" true 5
  have hd := h.1 rfl
  have hc := h.2.2.2.2.2 rfl rfl rfl
  exact ⟨hd.1, hd.2, hc.1, hc.2.1, hc.2.2⟩

/-- C4: `newTestRequest` always succeeds, every non-insertion field of the
returned request is the fixed test constant, the insertions and only-log flag
are copied through unchanged, and equal arguments give equal requests. -/
theorem newTestRequest_static (insertions : List Insertion) (onlyLog : Bool) :
    ∃ req, newTestRequest insertions onlyLog = Except.ok req ∧
      req.Request.UserInfo = { AnonUserId := "testAnonUserId1", UserId := "testUserId1" } ∧
      req.Request.UseCase = UseCase.SEARCH ∧
      req.Request.SearchQuery = "query" ∧
      req.Request.Paging = { Offset := 0, Size := 3 } ∧
      req.Request.DisablePersonalization = false ∧
      req.Request.Properties =
        some [("category", PValue.str "topic"), ("priceMin", PValue.num 10)] ∧
      req.Request.Insertion = insertions ∧
      req.OnlyLog = onlyLog ∧
      (∀ (ins2 : List Insertion) (b2 : Bool), ins2 = insertions → b2 = onlyLog →
        newTestRequest ins2 b2 = newTestRequest insertions onlyLog) :=
  ⟨_, rfl, rfl, rfl, rfl, rfl, rfl, rfl, rfl, rfl,
    fun _ _ h1 h2 => by rw [h1, h2]⟩

/-- Witness for C4 at the empty insertion list and `onlyLog = false`. -/
theorem newTestRequest_static_witness :
    (newTestRequest [] false).map DeliveryRequest.OnlyLog = Except.ok false := by
  obtain ⟨req, heq, -, -, -, -, -, -, -, hOL, -⟩ := newTestRequest_static [] false
  rw [heq]
  simp [Except.map, hOL]

/-- Helper: `newTestRequestInsertions` never panics and equals a pointwise map
over the product list. -/
theorem newTestRequestInsertions_eq (products : List Product) :
    newTestRequestInsertions products =
      some (products.map fun p =>
        { ContentId := p.ID, Properties := some [("price", PValue.num (p.Price : Rat))] }) := by
  induction products with
  | nil => rfl
  | cons p rest ih =>
    simp [newTestRequestInsertions, structpbNewStruct, structpbNewValueEntry, ih]

/-- Helper: `part000Insertions` equals a pointwise map over the product
list. -/
theorem part000Insertions_eq (products : List Product) :
    part000Insertions products =
      products.map fun p => { ContentId := p.ID, Properties := none } := by
  induction products with
  | nil => rfl
  | cons p rest ih => simp [part000Insertions, ih]

/-- Helper: indexing a mapped product list with `getD` inside bounds gives the
image of the indexed product. -/
theorem getD_map_product (f : Product → Insertion) (products : List Product) :
    ∀ (k : Nat) (hk : k < products.length),
      (products.map f).getD k dummyInsertion = f (products.get ⟨k, hk⟩) := by
  induction products with
  | nil => intro k hk; simp at hk
  | cons p rest ih =>
    intro k hk
    cases k with
    | zero => rfl
    | succ n =>
      have hn : n < rest.length := by simpa using hk
      calc ((p :: rest).map f).getD (n + 1) dummyInsertion
          = (rest.map f).getD n dummyInsertion := by simp
        _ = f (rest.get ⟨n, hn⟩) := ih n hn
        _ = f ((p :: rest).get ⟨n + 1, hk⟩) := rfl

/-- C9: `newTestRequestInsertions` is an order-preserving map: same length as
the product list, the `k`-th insertion takes the `k`-th product's ID as its
content id and carries that product's price as its `price` property. -/
theorem newTestRequestInsertions_ordered_map (products : List Product) :
    ∃ ins, newTestRequestInsertions products = some ins ∧
      ins.length = products.length ∧
      ∀ (k : Nat) (hk : k < products.length),
        (ins.getD k dummyInsertion).ContentId = (products.get ⟨k, hk⟩).ID ∧
        (ins.getD k dummyInsertion).Properties =
          some [("price", PValue.num ((products.get ⟨k, hk⟩).Price : Rat))] := by
  refine ⟨_, newTestRequestInsertions_eq products, by simp, ?_⟩
  intro k hk
  rw [getD_map_product _ products k hk]
  exact ⟨rfl, rfl⟩

/-- Witness for C9 at the concrete catalog `getProducts`. -/
theorem newTestRequestInsertions_ordered_map_witness :
    ((newTestRequestInsertions getProducts).getD []).length = getProducts.length ∧
    (((newTestRequestInsertions getProducts).getD []).getD 0 dummyInsertion).ContentId = "1" := by
  obtain ⟨ins, h, hlen, hidx⟩ := newTestRequestInsertions_ordered_map getProducts
  have h0 := (hidx 0 (by simp [getProducts])).1
  rw [h]
  exact ⟨by simpa using hlen, by simpa using h0⟩

/-- C10: on the same product list, the insertions of `src/main.go` and the
inline insertions of `src/unnamed/part_000` have the same length and the same
content id at every position, and differ only in the per-insertion `price`
property that `part_000` omits (nil properties there). -/
theorem insertions_versions_agree (products : List Product) :
    ∃ ins, newTestRequestInsertions products = some ins ∧
      ins.length = (part000Insertions products).length ∧
      ∀ (k : Nat) (hk : k < products.length),
        (ins.getD k dummyInsertion).ContentId =
          ((part000Insertions products).getD k dummyInsertion).ContentId ∧
        ((part000Insertions products).getD k dummyInsertion).Properties = none ∧
        (ins.getD k dummyInsertion).Properties =
          some [("price", PValue.num ((products.get ⟨k, hk⟩).Price : Rat))] := by
  refine ⟨_, newTestRequestInsertions_eq products, ?_, ?_⟩
  · rw [part000Insertions_eq]; simp
  · intro k hk
    rw [getD_map_product _ products k hk, part000Insertions_eq,
      getD_map_product _ products k hk]
    exact ⟨rfl, rfl, rfl⟩

/-- Witness for C10 at the concrete catalog `getProducts`, position 0. -/
theorem insertions_versions_agree_witness :
    (part000Insertions getProducts).length = getProducts.length ∧
    ((part000Insertions getProducts).getD 0 dummyInsertion).Properties = none := by
  obtain ⟨ins, h, hlen, hidx⟩ := insertions_versions_agree getProducts
  have h0 := (hidx 0 (by simp [getProducts])).2.1
  exact ⟨by simp [part000Insertions_eq, getProducts], h0⟩

/-- Helper: when validation fails, the run is the error print and exit 1. -/
theorem runMain_validateFail (env : Env) (w : World) (msg : String)
    (h : validateConfig (buildConfig env) = some msg) :
    runMain env w = [Ev.parseConfig (buildConfig env), Ev.validateFail msg, Ev.exit 1] := by
  simp [runMain, h]

/-- Helper: when the client builder fails, the run prints the init error and
panics. -/
theorem runMain_clientErr (env : Env) (w : World) (e : String)
    (hval : validateConfig (buildConfig env) = none)
    (hc : w.clientResult = Except.error e) :
    runMain env w = [Ev.parseConfig (buildConfig env), Ev.buildClient,
      Ev.print "Error initializing PromotedDeliveryClient", Ev.panicked] := by
  simp [runMain, hval, hc]

/-- Helper: when `Deliver` fails, the run stops in the panic after the single
`Deliver` call. -/
theorem runMain_deliverErr (env : Env) (w : World) (e : String)
    (hval : validateConfig (buildConfig env) = none)
    (hc : w.clientResult = Except.ok ())
    (hd : w.deliverResult = Except.error e) :
    runMain env w = [Ev.parseConfig (buildConfig env), Ev.buildClient, Ev.buildRequest,
      Ev.deliver, Ev.print "Delivery called failed", Ev.panicked] := by
  simp [runMain, mainAfterClient, hval, hc, hd, newTestRequestInsertions_eq,
    newTestRequest, structpbNewStruct, structpbNewValueEntry]

/-- Helper: when every step succeeds, the run is the four setup events
followed by the header prints and the re-ranked result prints. -/
theorem runMain_success (env : Env) (w : World) (resp : ClientResponse)
    (hval : validateConfig (buildConfig env) = none)
    (hc : w.clientResult = Except.ok ())
    (hd : w.deliverResult = Except.ok resp) :
    runMain env w =
      [Ev.parseConfig (buildConfig env), Ev.buildClient, Ev.buildRequest, Ev.deliver]
        ++ (headerLines resp ++ printLoop (productsMapOf getProducts) resp.Response.Insertion).map
          Ev.print := by
  simp [runMain, mainAfterClient, hval, hc, hd, newTestRequestInsertions_eq,
    newTestRequest, structpbNewStruct, structpbNewValueEntry]

/-- Helper: the printed line when the content id is in the catalog map. -/
theorem lineFor_eq_showProduct (pm : String → Option Product) (i : RespInsertion) (p : Product)
    (h : pm i.ContentId = some p) : lineFor pm i = showProduct p := by
  simp [lineFor, h]

/-- Helper: the printed line when the content id misses the catalog map. -/
theorem lineFor_eq_contentId (pm : String → Option Product) (i : RespInsertion)
    (h : pm i.ContentId = none) : lineFor pm i = i.ContentId := by
  simp [lineFor, h]

/-- C1: the response-printing loop is total: it prints one line for every
response insertion; the line is the catalog product when the content id is a
key of the map built from `getProducts`, and the raw content id otherwise. -/
theorem printLoop_total_over_catalog (ins : List RespInsertion) :
    (printLoop (productsMapOf getProducts) ins).length = ins.length ∧
    ∀ (k : Nat) (hk : k < ins.length),
      (∃ p, productsMapOf getProducts (ins.get ⟨k, hk⟩).ContentId = some p ∧
        (printLoop (productsMapOf getProducts) ins).getD k "" = showProduct p) ∨
      (productsMapOf getProducts (ins.get ⟨k, hk⟩).ContentId = none ∧
        (printLoop (productsMapOf getProducts) ins).getD k "" = (ins.get ⟨k, hk⟩).ContentId) := by
  refine ⟨printLoop_length _ ins, ?_⟩
  intro k hk
  rw [printLoop_getD _ ins k hk]
  cases hcase : productsMapOf getProducts (ins.get ⟨k, hk⟩).ContentId with
  | none => exact Or.inr ⟨rfl, lineFor_eq_contentId _ _ hcase⟩
  | some p => exact Or.inl ⟨p, rfl, lineFor_eq_showProduct _ _ p hcase⟩

/-- Witness for C1 on a response with one known and one unknown content id. -/
theorem printLoop_total_over_catalog_witness :
    (printLoop (productsMapOf getProducts) [⟨"2"⟩, ⟨"x"⟩]).length = 2 ∧
    (printLoop (productsMapOf getProducts) [⟨"2"⟩, ⟨"x"⟩]).getD 1 "" = "x" := by
  have h := printLoop_total_over_catalog [⟨"2"⟩, ⟨"x"⟩]
  refine ⟨h.1, ?_⟩
  rcases h.2 1 (by decide) with ⟨p, hp, hline⟩ | ⟨-, hline⟩
  · exact absurd hp (by simp [productsMapOf, getProducts])
  · simpa using hline

/-- C5: the program itself never reorders, filters or scores: the printing
loop emits exactly one line per response insertion, the `k`-th line coming
from the `k`-th response insertion, and a fully successful run prints exactly
the headers followed by those lines in response order. -/
theorem printLoop_one_line_per_insertion (pm : String → Option Product)
    (ins : List RespInsertion) :
    (printLoop pm ins).length = ins.length ∧
    (∀ (k : Nat) (hk : k < ins.length),
      (printLoop pm ins).getD k "" = lineFor pm (ins.get ⟨k, hk⟩)) ∧
    (∀ (env : Env) (w : World) (resp : ClientResponse),
      validateConfig (buildConfig env) = none → w.clientResult = Except.ok () →
      w.deliverResult = Except.ok resp →
      runMain env w =
        [Ev.parseConfig (buildConfig env), Ev.buildClient, Ev.buildRequest, Ev.deliver]
          ++ (headerLines resp
              ++ printLoop (productsMapOf getProducts) resp.Response.Insertion).map Ev.print) :=
  ⟨printLoop_length pm ins, printLoop_getD pm ins,
    fun env w resp hval hc hd => runMain_success env w resp hval hc hd⟩

/-- Witness for C5: a concrete successful run prints the headers and then one
line per response insertion, in order. -/
theorem printLoop_one_line_per_insertion_witness :
    runMain (fun _ => some "v")
        { clientResult := Except.ok (),
          deliverResult := Except.ok ⟨"es", "cid", ⟨[⟨"1"⟩]⟩⟩ } =
      [Ev.parseConfig (buildConfig (fun _ => some "v")), Ev.buildClient, Ev.buildRequest,
        Ev.deliver]
        ++ (headerLines ⟨"es", "cid", ⟨[⟨"1"⟩]⟩⟩
            ++ printLoop (productsMapOf getProducts) [⟨"1"⟩]).map Ev.print :=
  (printLoop_one_line_per_insertion (fun _ => none) []).2.2 _ _ _ (by decide) rfl rfl

/-- C8: `validateConfig` errors exactly when one of the four string fields is
empty, naming the first empty field in the fixed check order, and a run whose
config fails validation is exactly the error report and exit status 1 — no
client build, no request, no response output. -/
theorem validateConfig_first_empty (c : Config) :
    ((validateConfig c).isSome ↔
      (c.MetricsApiEndpointUrl = "" ∨ c.MetricsApiKey = "" ∨
       c.DeliveryApiEndpointUrl = "" ∨ c.DeliveryApiKey = "")) ∧
    (c.MetricsApiEndpointUrl = "" →
      validateConfig c = some "metricsApiEndpointUrl needs to be specified") ∧
    (c.MetricsApiEndpointUrl ≠ "" → c.MetricsApiKey = "" →
      validateConfig c = some "metricsApiKey needs to be specified") ∧
    (c.MetricsApiEndpointUrl ≠ "" → c.MetricsApiKey ≠ "" → c.DeliveryApiEndpointUrl = "" →
      validateConfig c = some "deliveryApiEndpointUrl needs to be specified") ∧
    (c.MetricsApiEndpointUrl ≠ "" → c.MetricsApiKey ≠ "" → c.DeliveryApiEndpointUrl ≠ "" →
      c.DeliveryApiKey = "" →
      validateConfig c = some "deliveryApiKey needs to be specified") ∧
    (∀ (env : Env) (w : World) (msg : String), buildConfig env = c →
      validateConfig c = some msg →
      runMain env w = [Ev.parseConfig c, Ev.validateFail msg, Ev.exit 1]) := by
  refine ⟨?_, ?_, ?_, ?_, ?_, ?_⟩
  · simp only [validateConfig]
    split_ifs <;> simp [*]
  · intro h1; simp [validateConfig, h1]
  · intro h1 h2; simp [validateConfig, h1, h2]
  · intro h1 h2 h3; simp [validateConfig, h1, h2, h3]
  · intro h1 h2 h3 h4; simp [validateConfig, h1, h2, h3, h4]
  · intro env w msg hb hv
    subst hb
    exact runMain_validateFail env w msg hv

/-- Witness for C8 on a config whose metrics key is the first empty field. -/
theorem validateConfig_first_empty_witness :
    validateConfig
        { MetricsApiEndpointUrl := "m", MetricsApiKey := "", DeliveryApiEndpointUrl := "d",
          DeliveryApiKey := "k", OnlyLog := false, ShadowTrafficDeliveryRate := 0,
          BlockingShadowTraffic := false } =
      some "metricsApiKey needs to be specified" :=
  (validateConfig_first_empty _).2.2.1 (by decide) rfl

/-- Helper: printed lines contribute no `deliver` events. -/
theorem countP_deliver_map_print (ls : List String) :
    (ls.map Ev.print).countP (fun e => decide (e = Ev.deliver)) = 0 := by
  induction ls with
  | nil => rfl
  | cons s rest ih => simp [List.countP_cons, ih]

/-- C6: `main` is a linear script: every trace starts by parsing the config;
a failed validation is followed by nothing but the error report and exit 1; a
failed client build stops before any request; `Deliver` is called exactly
once after the request is built; a failed `Deliver` stops before any response
output; a successful `Deliver` is followed by exactly the response prints;
and `deliver` occurs at most once in every trace. -/
theorem mainTrace_linear (env : Env) (w : World) :
    (runMain env w).head? = some (Ev.parseConfig (buildConfig env)) ∧
    (∀ msg, validateConfig (buildConfig env) = some msg →
      runMain env w = [Ev.parseConfig (buildConfig env), Ev.validateFail msg, Ev.exit 1]) ∧
    (∀ e, validateConfig (buildConfig env) = none → w.clientResult = Except.error e →
      runMain env w = [Ev.parseConfig (buildConfig env), Ev.buildClient,
        Ev.print "Error initializing PromotedDeliveryClient", Ev.panicked]) ∧
    (∀ e, validateConfig (buildConfig env) = none → w.clientResult = Except.ok () →
      w.deliverResult = Except.error e →
      runMain env w = [Ev.parseConfig (buildConfig env), Ev.buildClient, Ev.buildRequest,
        Ev.deliver, Ev.print "Delivery called failed", Ev.panicked]) ∧
    (∀ resp, validateConfig (buildConfig env) = none → w.clientResult = Except.ok () →
      w.deliverResult = Except.ok resp →
      runMain env w =
        [Ev.parseConfig (buildConfig env), Ev.buildClient, Ev.buildRequest, Ev.deliver]
          ++ (headerLines resp
              ++ printLoop (productsMapOf getProducts) resp.Response.Insertion).map Ev.print) ∧
    (runMain env w).countP (fun e => decide (e = Ev.deliver)) ≤ 1 := by
  refine ⟨rfl, ?_, ?_, ?_, ?_, ?_⟩
  · intro msg h; exact runMain_validateFail env w msg h
  · intro e hval hc; exact runMain_clientErr env w e hval hc
  · intro e hval hc hd; exact runMain_deliverErr env w e hval hc hd
  · intro resp hval hc hd; exact runMain_success env w resp hval hc hd
  · cases hval : validateConfig (buildConfig env) with
    | some msg =>
      rw [runMain_validateFail env w msg hval]
      simp [List.countP_cons]
    | none =>
      cases hc : w.clientResult with
      | error e =>
        rw [runMain_clientErr env w e hval hc]
        simp [List.countP_cons]
      | ok u =>
        cases u
        cases hd : w.deliverResult with
        | error e =>
          rw [runMain_deliverErr env w e hval hc hd]
          simp [List.countP_cons]
        | ok resp =>
          rw [runMain_success env w resp hval hc hd]
          simp [List.countP_append, List.countP_cons, countP_deliver_map_print]

/-- Witness for C6: with every variable unset, the run is exactly the
validation failure and exit 1, with no client build and no `Deliver`. -/
theorem mainTrace_linear_witness :
    runMain emptyEnv { clientResult := Except.ok (), deliverResult := Except.error "down" } =
      [Ev.parseConfig (buildConfig emptyEnv),
       Ev.validateFail "metricsApiEndpointUrl needs to be specified", Ev.exit 1] :=
  (mainTrace_linear emptyEnv _).2.1 "metricsApiEndpointUrl needs to be specified" rfl

/-- Helper: the config construction reads the environment only at the seven
keys of `envKeys7`. -/
theorem buildConfig_agree_keys7 (e₁ e₂ : Env) (h : ∀ k ∈ envKeys7, e₁ k = e₂ k) :
    buildConfig e₁ = buildConfig e₂ := by
  have h1 := h "METRICS_API_ENDPOINT_URL" (by decide)
  have h2 := h "METRICS_API_KEY" (by decide)
  have h3 := h "DELIVERY_API_ENDPOINT_URL" (by decide)
  have h4 := h "DELIVERY_API_KEY" (by decide)
  have h5 := h "ONLY_LOG" (by decide)
  have h6 := h "SHADOW_TRAFFIC_DELIVERY_RATE" (by decide)
  have h7 := h "BLOCKING_SHADOW_TRAFFIC" (by decide)
  simp only [buildConfig, getEnvStr, parseBoolEnv, parseFloatEnv, h1, h2, h3, h4, h5, h6, h7]

/-- Helper: setting any one of the seven keys (to `"1"`) changes the config
built from the empty environment, so each of the seven is genuinely read. -/
theorem buildConfig_flip_ne (k : String) (hk : k ∈ envKeys7) :
    buildConfig emptyEnv ≠ buildConfig (flipEnv k) := by
  simp only [envKeys7, Finset.mem_insert, Finset.mem_singleton] at hk
  rcases hk with rfl | rfl | rfl | rfl | rfl | rfl | rfl
  · decide
  · decide
  · decide
  · decide
  · decide
  · intro heq
    have h := congrArg Config.ShadowTrafficDeliveryRate heq
    simp [buildConfig, parseFloatEnv, goParseFloat, takeDigits, digitsToNat, getEnvStr,
      flipEnv, emptyEnv] at h
  · decide

/-- C2 counterexample: no set of four environment variables determines the
`Config` — the construction reads more than four (it reads seven). -/
theorem config_not_four_env_vars :
    ¬ ∃ S : Finset String, S.card = 4 ∧
      ∀ e₁ e₂ : Env, (∀ k ∈ S, e₁ k = e₂ k) → buildConfig e₁ = buildConfig e₂ := by
  rintro ⟨S, hcard, hdep⟩
  have hsub : envKeys7 ⊆ S := by
    intro k hk
    by_contra hkS
    have hagree : ∀ j ∈ S, emptyEnv j = flipEnv k j := by
      intro j hj
      have hjk : j ≠ k := fun hjb => hkS (hjb ▸ hj)
      simp [emptyEnv, flipEnv, hjk]
    exact buildConfig_flip_ne k hk (hdep emptyEnv (flipEnv k) hagree)
  have h74 : (7 : Nat) ≤ 4 := by
    have hc7 : envKeys7.card = 7 := by decide
    calc (7 : Nat) = envKeys7.card := hc7.symm
      _ ≤ S.card := Finset.card_le_card hsub
      _ = 4 := hcard
  omega

/-- C2 (amended): the `Config` is populated from exactly the seven
environment variables of `envKeys7`: the construction depends on no other
variable, and each of the seven individually affects the result. -/
theorem buildConfig_seven_env_vars :
    (∀ e₁ e₂ : Env, (∀ k ∈ envKeys7, e₁ k = e₂ k) → buildConfig e₁ = buildConfig e₂) ∧
    (∀ k ∈ envKeys7, buildConfig emptyEnv ≠ buildConfig (flipEnv k)) :=
  ⟨buildConfig_agree_keys7, buildConfig_flip_ne⟩

/-- Witness for the amended C2: a variable outside the seven does not affect
the config, while setting `ONLY_LOG` does. -/
theorem buildConfig_seven_env_vars_witness :
    buildConfig emptyEnv = buildConfig (fun j => if j = "SOME_OTHER_VAR" then some "x" else none) ∧
    buildConfig emptyEnv ≠ buildConfig (flipEnv "ONLY_LOG") := by
  constructor
  · apply buildConfig_seven_env_vars.1
    intro k hk
    have hne : k ≠ "SOME_OTHER_VAR" := by
      intro hkv
      subst hkv
      revert hk
      decide
    simp [emptyEnv, hne]
  · exact buildConfig_seven_env_vars.2 "ONLY_LOG" (by decide)

end Theorems

end PromotedExample
